import Mathlib

/-! Shallow embedding of the two Scheme interpreters of this repository,
`src/lisp/lispy.py` (namespace `Lispy`) and `src/lisp/lis.py` (namespace
`Lis`), under Python 3 semantics (the dialect both files target: they use
f-strings and `print(..., file=...)`).  Python integers are modelled as
`Int` (unbounded), floats as `Rat` (no claim depends on binary rounding),
and fallible Python code as `Except Exc`.  Object identity of interned
symbols is modelled by an allocation counter. -/

namespace Lispy

/-- Symbol object of `class Symbol(str)` (lispy.py line 10).  `name` is the
string contents; `id` is an allocation token modelling CPython object
identity, so that the `is` comparisons of the source can be expressed. -/
structure Symbol where
  name : String
  id : Nat

/-- State of the interning table used by `Sym` (lispy.py lines 12 to 15),
plus the allocation counter handing out identities of fresh `Symbol`
objects (interned or not). -/
structure SymState where
  entries : List (String × Nat)
  next : Nat

/-- Model of `Sym(s)` (lispy.py lines 12 to 15): find or create the unique
interned Symbol for the string `s` in the (module level, mutable) symbol
table. -/
def Sym (s : String) (st : SymState) : Symbol × SymState :=
  match st.entries.find? (fun e => e.1 == s) with
  | some e => (⟨s, e.2⟩, st)
  | Option.none => (⟨s, st.next⟩, ⟨st.entries ++ [(s, st.next)], st.next + 1⟩)

/-- Model of a bare `Symbol(token)` constructor call: allocates a fresh
object (a `str` subclass instance is never shared), without touching the
interning table. -/
def symbolNew (s : String) (st : SymState) : Symbol × SymState :=
  (⟨s, st.next⟩, ⟨st.entries, st.next + 1⟩)

/-- Model of `op.is_` (the Python `is` operator) restricted to Symbol
objects: identity of allocation tokens.  This is the `eq?` primitive of
lispy.py line 171 when both operands are symbols. -/
def symIsB (a b : Symbol) : Bool :=
  a.id == b.id

/-- Interned specials created at module load, lispy.py lines 18 to 22.
The ids record the allocation order of the module body. -/
def quoteS : Symbol := ⟨"quote", 0⟩

def ifS : Symbol := ⟨"if", 1⟩

def setS : Symbol := ⟨"set!", 2⟩

def defineS : Symbol := ⟨"define", 3⟩

def lambdaS : Symbol := ⟨"lambda", 4⟩

def beginS : Symbol := ⟨"begin", 5⟩

def defineMacroS : Symbol := ⟨"define-macro", 6⟩

def quasiquoteS : Symbol := ⟨"quasiquote", 7⟩

def unquoteS : Symbol := ⟨"unquote", 8⟩

def unquoteSplicingS : Symbol := ⟨"unquote-splicing", 9⟩

/-- The eof object, lispy.py line 39: a deliberately uninterned Symbol
(created with the bare constructor, so it takes allocation id 10 but is
absent from the interning table). -/
def eofObj : Symbol := ⟨"#<eof-object>", 10⟩

/-- Interned specials of lispy.py line 294 (allocated after the eof
object). -/
def appendS : Symbol := ⟨"append", 11⟩

def consS : Symbol := ⟨"cons", 12⟩

def letS : Symbol := ⟨"let", 13⟩

/-- The interning table as it stands once the module body of lispy.py has
run: the thirteen interned names of lines 18, 21 and 294 (the eof object of
line 39 consumed allocation id 10 without being interned). -/
def initSymState : SymState :=
  ⟨[("quote", 0), ("if", 1), ("set!", 2), ("define", 3), ("lambda", 4),
    ("begin", 5), ("define-macro", 6), ("quasiquote", 7), ("unquote", 8),
    ("unquote-splicing", 9), ("append", 11), ("cons", 12), ("let", 13)], 14⟩

/-- Runtime values of lispy.py.  `sym` and `str` are distinct because
`Symbol` is a proper subclass of `str` and `isinstance(x, Symbol)` tells
them apart.  `mapObj` models a Python 3 lazy `map(expand, xs)` iterator
whose elements have not been computed (the embedded `expand` produces such
objects exactly where the source does).  `proc` is a `Procedure` of lines
24 to 30, capturing its defining environment; `prim` is an opaque host
callable installed by `add_globals`. -/
inductive PyVal where
  | none
  | bool (b : Bool)
  | int (n : Int)
  | float (q : Rat)
  | complex (re im : Rat)
  | str (s : String)
  | sym (s : Symbol)
  | list (xs : List PyVal)
  | proc (params exp : PyVal) (env : List (List (PyVal × PyVal)))
  | prim (name : String)
  | mapObj (pending : List PyVal)

/-- Python exception classes raised by the embedded code.  `ball` is the
`RuntimeWarning` instance created by `call_cc` (lispy.py line 148, with its
`retval` attribute); `runtimeError` stands for the distinct class
`RuntimeError` that the handler of line 152 actually catches.
`arityTypeError` is the `TypeError` of Env construction (lines 130 to 131)
with its interpolated message abstracted to a structured payload.
`outOfFuel` is an artifact of the fuel based modelling of general
recursion, not a Python exception; it never arises at the fuel values used
below. -/
inductive Exc where
  | nameError (n : String)
  | lookupError (n : String)
  | keyError (n : String)
  | typeError (msg : String)
  | arityTypeError (params : PyVal) (args : List PyVal)
  | syntaxError (msg : String)
  | valueError (msg : String)
  | indexError
  | attributeError (msg : String)
  | ball (retval : PyVal)
  | runtimeError
  | outOfFuel

/-- Python type name of a value, as it appears in interpolated TypeError
messages. -/
def pyTypeName (x : PyVal) : String :=
  match x with
  | PyVal.none => "NoneType"
  | PyVal.bool _ => "bool"
  | PyVal.int _ => "int"
  | PyVal.float _ => "float"
  | PyVal.complex _ _ => "complex"
  | PyVal.str _ => "str"
  | PyVal.sym _ => "Symbol"
  | PyVal.list _ => "list"
  | PyVal.proc _ _ _ => "Procedure"
  | PyVal.prim _ => "function"
  | PyVal.mapObj _ => "map"

/-- Numeric view used by Python `==`: booleans compare as 0/1, ints and
floats compare by value, complex numbers by components. -/
def numView (x : PyVal) : Option (Rat × Rat) :=
  match x with
  | PyVal.bool b => some (if b then 1 else 0, 0)
  | PyVal.int n => some ((n : Rat), 0)
  | PyVal.float q => some (q, 0)
  | PyVal.complex r i => some (r, i)
  | _ => Option.none

/-- Model of Python `==` on the values above.  Symbols (being `str`
subclasses) compare with plain strings by contents; lists compare
elementwise; booleans, ints, floats and complex numbers compare through
the numeric view; values compared only by object identity in CPython
(functions, Procedures, map iterators) never coincide across distinct
allocations in the reachable fragment, so they are taken unequal. -/
def pyEq : PyVal → PyVal → Bool
  | PyVal.list (a :: as), PyVal.list (b :: bs) =>
    pyEq a b && pyEq (PyVal.list as) (PyVal.list bs)
  | PyVal.list [], PyVal.list [] => true
  | PyVal.none, PyVal.none => true
  | PyVal.sym a, PyVal.sym b => a.name == b.name
  | PyVal.sym a, PyVal.str b => a.name == b
  | PyVal.str a, PyVal.sym b => a == b.name
  | PyVal.str a, PyVal.str b => a == b
  | x, y =>
    match numView x, numView y with
    | some a, some b => a.1 == b.1 && a.2 == b.2
    | _, _ => false

/-- Python `is` between the values compared by identity in the source (the
special form dispatch of `expand` compares against interned Symbol
constants). -/
def pyIs (a b : PyVal) : Bool :=
  match a, b with
  | PyVal.sym s, PyVal.sym t => s.id == t.id
  | _, _ => false

/-- Test for `isinstance(x, list)`. -/
def isListV (x : PyVal) : Bool :=
  match x with
  | PyVal.list _ => true
  | _ => false

/-- Test for `isinstance(x, Symbol)`. -/
def isSymV (x : PyVal) : Bool :=
  match x with
  | PyVal.sym _ => true
  | _ => false

/-- Test for `callable(x)`. -/
def pyCallable (x : PyVal) : Bool :=
  match x with
  | PyVal.proc _ _ _ => true
  | PyVal.prim _ => true
  | _ => false

/-- Name carried by a symbol or string (used for table keys and error
payloads). -/
def symNameOf (v : PyVal) : String :=
  match v with
  | PyVal.sym s => s.name
  | PyVal.str s => s
  | _ => ""

/-- Python `x[0]`: indexing a list or a string (a Symbol indexes like the
plain string it subclasses, yielding a plain one character `str`); any
other receiver raises TypeError. -/
def subscript0 (x : PyVal) : Except Exc PyVal :=
  match x with
  | PyVal.list (h :: _) => Except.ok h
  | PyVal.list [] => Except.error Exc.indexError
  | PyVal.sym s =>
    match s.name.data with
    | c :: _ => Except.ok (PyVal.str (String.singleton c))
    | [] => Except.error Exc.indexError
  | PyVal.str s =>
    match s.data with
    | c :: _ => Except.ok (PyVal.str (String.singleton c))
    | [] => Except.error Exc.indexError
  | _ => Except.error (Exc.typeError (pyTypeName x ++ " object is not subscriptable"))

/-- Test for `is_pair(x)` (lispy.py line 141): `x != [] and isa(x, list)`,
i.e. a nonempty list. -/
def is_pair (x : PyVal) : Bool :=
  match x with
  | PyVal.list (_ :: _) => true
  | _ => false

/-- One environment frame: the dict of an `Env` (lispy.py line 123).  Keys
compare by Python `==` (symbols hash and compare as their string
contents). -/
abbrev Frame := List (PyVal × PyVal)

/-- An environment chain, innermost frame first; the empty list marks
`outer is None` past the root. -/
abbrev EnvChain := List Frame

/-- Membership test `var in self` on a frame. -/
def frameContains (fr : Frame) (var : PyVal) : Bool :=
  fr.any (fun kv => pyEq kv.1 var)

/-- Dict subscript `self[var]` on a frame (KeyError when absent; the
evaluator only subscripts after a successful `find`). -/
def frameGet (fr : Frame) (var : PyVal) : Except Exc PyVal :=
  match fr.find? (fun kv => pyEq kv.1 var) with
  | some kv => Except.ok kv.2
  | Option.none => Except.error (Exc.keyError (symNameOf var))

/-- Model of `Env.find` (lispy.py lines 134 to 138): innermost frame
containing `var`, walking outward; exhausting the chain (outer is None at
the root) raises `LookupError(var)`. -/
def find : PyVal → EnvChain → Except Exc Frame
  | var, [] => Except.error (Exc.lookupError (symNameOf var))
  | var, fr :: outer => if frameContains fr var then Except.ok fr else find var outer

/-- Model of `Env.__init__` (lispy.py lines 125 to 132): a single Symbol
parameter binds the whole argument tuple as a list; otherwise
`len(args) != len(params)` raises the TypeError of line 131, else the
frame is `dict(zip(params, args))`.  A plain string parameter (not a
Symbol) zips characterwise exactly as Python does; receivers without
`len` raise TypeError.  The new frame is chained onto `outer`. -/
def envNew (params : PyVal) (args : List PyVal) (outer : EnvChain) : Except Exc EnvChain :=
  match params with
  | PyVal.sym s => Except.ok ([(PyVal.sym s, PyVal.list args)] :: outer)
  | PyVal.list ps =>
    if args.length ≠ ps.length then Except.error (Exc.arityTypeError (PyVal.list ps) args)
    else Except.ok ((ps.zip args) :: outer)
  | PyVal.str s =>
    let cs := s.data.map (fun c => PyVal.str (String.singleton c))
    if args.length ≠ cs.length then Except.error (Exc.arityTypeError (PyVal.str s) args)
    else Except.ok ((cs.zip args) :: outer)
  | _ => Except.error (Exc.typeError (pyTypeName params ++ " has no len"))

/-- Model of `eval` (lispy.py lines 196 to 233) under Python 3.  A Symbol
is looked up through `env.find(x)[x]` (lines 198 to 199).  Every other
input immediately evaluates `isa(x, List)` on line 200 — but the name
`List` is defined nowhere in lispy.py (it exists only in lis.py, which is
not imported), so Python raises `NameError: name List is not defined`
before any further branch can run.  Lines 202 to 233 (the entire special
form and application dispatch) are therefore dead code; in addition the
dispatch lacks the `while True` loop of the original, so the `if`,
`begin` and Procedure application branches would fall off the end of the
function and return None even with `List` defined (line 195 carries the
comment `TODO make tail recursive`).  Because no mutating line is
reachable, the function is modelled without threading environment
state. -/
def eval (x : PyVal) (env : EnvChain) : Except Exc PyVal :=
  match x with
  | PyVal.sym s =>
    match find (PyVal.sym s) env with
    | Except.ok fr => frameGet fr (PyVal.sym s)
    | Except.error e => Except.error e
  | _ => Except.error (Exc.nameError "List")

/-- Test used to state unbound variable facts: `s` occurs as a key in no
frame of the chain (the same membership test `find` performs). -/
def envBound (s : Symbol) (env : EnvChain) : Bool :=
  env.any (fun fr => frameContains fr (PyVal.sym s))

/-- TypeError message of Python list concatenation with a non list right
operand. -/
def concatMsg (y : PyVal) : String :=
  "can only concatenate list (not " ++ pyTypeName y ++ ") to list"

/-- Model of `cons` (lispy.py line 142): `[x] + y`.  List concatenation
builds a fresh list (the second operand is not mutated); a non list second
operand raises TypeError, so no dotted pair can arise. -/
def cons (x y : PyVal) : Except Exc PyVal :=
  match y with
  | PyVal.list ys => Except.ok (PyVal.list (x :: ys))
  | _ => Except.error (Exc.typeError (concatMsg y))

/-- Exception class test performed by the `except RuntimeError` clause of
lispy.py line 152.  In Python, `RuntimeWarning` derives from `Warning`,
not from `RuntimeError`, so the ball created on line 148 does not match
this clause. -/
def isRuntimeErrorExc (e : Exc) : Bool :=
  match e with
  | Exc.runtimeError => true
  | _ => false

/-- Model of `call_cc` (lispy.py lines 146 to 154).  `throw` stores the
return value on the ball and raises it; the handler catches only
`RuntimeError` (line 152), re-raising anything else after the `w is ball`
identity test.  Since the ball is a `RuntimeWarning`, the handler never
fires and the ball propagates to the caller. -/
def call_cc (proc : (PyVal → Except Exc PyVal) → Except Exc PyVal) : Except Exc PyVal :=
  let throwF : PyVal → Except Exc PyVal := fun retval => Except.error (Exc.ball retval)
  match proc throwF with
  | Except.ok v => Except.ok v
  | Except.error w =>
    if isRuntimeErrorExc w then
      match w with
      | Exc.ball r => Except.ok r
      | _ => Except.error w
    else Except.error w

/-- Model of `op.add` restricted to the operand kinds exercised below
(integers and lists); other numeric cross cases of the host `+` are not
needed by any embedded program. -/
def pyAdd (a b : PyVal) : Except Exc PyVal :=
  match a, b with
  | PyVal.int m, PyVal.int n => Except.ok (PyVal.int (m + n))
  | PyVal.list xs, PyVal.list ys => Except.ok (PyVal.list (xs ++ ys))
  | _, _ => Except.error (Exc.typeError ("unsupported operand types for + with " ++ pyTypeName a))

/-- The procedure of the spec example `(lambda (k) (+ 1 (k 42)))`, written
against the `throw` argument that `call_cc` supplies: Python evaluates
`k(42)` first, and only on normal return would apply `+ 1`. -/
def contExample (throwF : PyVal → Except Exc PyVal) : Except Exc PyVal :=
  match throwF (PyVal.int 42) with
  | Except.ok v => pyAdd (PyVal.int 1) v
  | Except.error e => Except.error e

/-- Value of a digit run. -/
def natOfDigits (l : List Char) : Nat :=
  l.foldl (fun a c => a * 10 + (c.toNat - 48)) 0

/-- Model of `int(token)` on the tokens the tokenizer produces: an optional
sign followed by a nonempty digit run (underscore separators and
surrounding whitespace, which no token contains, are not modelled). -/
def pyIntParse (s : String) : Option Int :=
  match s.data with
  | [] => Option.none
  | c :: rest =>
    if c == '+' then
      if (!rest.isEmpty) && rest.all Char.isDigit then some (Int.ofNat (natOfDigits rest))
      else Option.none
    else if c == '-' then
      if (!rest.isEmpty) && rest.all Char.isDigit then some (-(Int.ofNat (natOfDigits rest)))
      else Option.none
    else if (c :: rest).all Char.isDigit then some (Int.ofNat (natOfDigits (c :: rest)))
    else Option.none

/-- Split a character list at the first character satisfying `p`. -/
def breakAt (p : Char → Bool) : List Char → Option (List Char × List Char)
  | [] => Option.none
  | c :: rest =>
    if p c then some ([], rest)
    else
      match breakAt p rest with
      | some ab => some (c :: ab.1, ab.2)
      | Option.none => Option.none

/-- Unsigned decimal mantissa: digits, or digits dot digits with at least
one digit present. -/
def mantParse (l : List Char) : Option Rat :=
  match breakAt (fun c => c == '.') l with
  | Option.none =>
    if (!l.isEmpty) && l.all Char.isDigit then some ((natOfDigits l : Rat)) else Option.none
  | some ab =>
    if ab.1.isEmpty && ab.2.isEmpty then Option.none
    else if ab.1.all Char.isDigit && ab.2.all Char.isDigit then
      some ((natOfDigits ab.1 : Rat) + (natOfDigits ab.2 : Rat) / ((10 : Rat) ^ ab.2.length))
    else Option.none

/-- Signed decimal mantissa. -/
def signedMant : List Char → Option Rat
  | '+' :: rest => mantParse rest
  | '-' :: rest => (mantParse rest).map Neg.neg
  | l => mantParse l

/-- Signed exponent digits. -/
def expParse (l : List Char) : Option Int :=
  match l with
  | '+' :: r =>
    if (!r.isEmpty) && r.all Char.isDigit then some (Int.ofNat (natOfDigits r)) else Option.none
  | '-' :: r =>
    if (!r.isEmpty) && r.all Char.isDigit then some (-(Int.ofNat (natOfDigits r))) else Option.none
  | r =>
    if (!r.isEmpty) && r.all Char.isDigit then some (Int.ofNat (natOfDigits r)) else Option.none

/-- Model of `float(token)` on finite decimal forms, with optional
exponent part (the special spellings inf and nan are outside the modelled
fragment; no claim involves them). -/
def pyFloatParse (s : String) : Option Rat :=
  match breakAt (fun c => c == 'e' || c == 'E') s.data with
  | Option.none => signedMant s.data
  | some me =>
    match signedMant me.1, expParse me.2 with
    | some q, some ex => some (q * (10 : Rat) ^ ex)
    | _, _ => Option.none

/-- Replace the first occurrence of a character, as
`token.replace(i, j, 1)` does on line 91 of lispy.py. -/
def replaceFirst (c d : Char) : List Char → List Char
  | [] => []
  | a :: rest => if a == c then d :: rest else a :: replaceFirst c d rest

/-- Position of the last sign character that separates a real part from an
imaginary part (not leading and not an exponent sign). -/
def lastSignSplit (body : List Char) : Option (List Char × List Char) :=
  (List.range body.length).reverse.findSome? (fun k =>
    if k == 0 then Option.none
    else
      match body.get? k, body.get? (k - 1) with
      | some c, some p =>
        if (c == '+' || c == '-') && !(p == 'e' || p == 'E') then
          some (body.take k, body.drop k)
        else Option.none
      | _, _ => Option.none)

/-- A bare sign denotes a unit coefficient in complex literals. -/
def signOnly : List Char → Option Rat
  | ['+'] => some 1
  | ['-'] => some (-1)
  | _ => Option.none

/-- Model of `complex(token.replace(i, j, 1))` for the j suffixed forms
(with optional real part).  Pure real spellings never reach this branch
because int and float parsing run first; parenthesised literals cannot
occur in a token; exponent parts inside complex literals are outside the
modelled fragment. -/
def pyComplexParse (s : String) : Option (Rat × Rat) :=
  let l := replaceFirst 'i' 'j' s.data
  match l.getLast? with
  | some 'j' =>
    let body := l.dropLast
    if body.isEmpty then some (0, 1)
    else
      match signOnly body with
      | some sg => some (0, sg)
      | Option.none =>
        match signedMant body with
        | some q => some (0, q)
        | Option.none =>
          match lastSignSplit body with
          | some ri =>
            match signedMant ri.1,
                (match signOnly ri.2 with
                 | some sg => some sg
                 | Option.none => signedMant ri.2) with
            | some r, some i2 => some (r, i2)
            | _, _ => Option.none
          | Option.none => Option.none
  | _ => Option.none

/-- Model of `atom` (lispy.py lines 82 to 93) under Python 3: `#t` and
`#f` are booleans; a leading double quote selects the string branch, whose
`token[1:-1].decode(string_escape)` raises AttributeError because Python 3
strings have no `decode` method; then int, float and complex parses are
tried in order; everything else becomes a **fresh, uninterned**
`Symbol(token)` — note the original calls `Sym(token)` here, this port
calls the bare constructor. -/
def atom (token : String) (st : SymState) : (Except Exc PyVal) × SymState :=
  if token == "#t" then (Except.ok (PyVal.bool true), st)
  else if token == "#f" then (Except.ok (PyVal.bool false), st)
  else
    match token.data with
    | [] => (Except.error Exc.indexError, st)
    | c :: _ =>
      if c == '"' then
        (Except.error (Exc.attributeError "str object has no attribute decode"), st)
      else
        match pyIntParse token with
        | some n => (Except.ok (PyVal.int n), st)
        | Option.none =>
          match pyFloatParse token with
          | some q => (Except.ok (PyVal.float q), st)
          | Option.none =>
            match pyComplexParse token with
            | some ri => (Except.ok (PyVal.complex ri.1 ri.2), st)
            | Option.none =>
              let s2 := symbolNew token st
              (Except.ok (PyVal.sym s2.1), s2.2)

/-- An input port (lispy.py lines 41 to 56): the retained rest of the
current line, and the remaining results `readline` will hand out (the
empty list meaning end of file, where `readline` returns the empty
string). -/
structure InPort where
  line : String
  fileRest : List String

/-- The apostrophe character (code 39). -/
def squote : Char := Char.ofNat 39

/-- Characters admissible in a maximal nondelimiter run of the tokenizer
regex (the class excluding whitespace and the seven delimiters). -/
def isRunChar (c : Char) : Bool :=
  !(c.isWhitespace || c == '(' || c == ')' || c == '"' || c == '`' ||
    c == ',' || c == ';' || c == squote)

/-- Scan a double quoted string body after the opening quote, honouring
backslash escapes; returns the scanned characters (through the closing
quote) and the rest, or fails when the quote is unterminated (where the
regex alternative would not match). -/
def scanStr : List Char → Option (List Char × List Char)
  | [] => Option.none
  | '"' :: rest => some (['"'], rest)
  | '\\' :: c :: rest =>
    match scanStr rest with
    | some pr => some ('\\' :: c :: pr.1, pr.2)
    | Option.none => Option.none
  | ['\\'] => Option.none
  | c :: rest =>
    match scanStr rest with
    | some pr => some (c :: pr.1, pr.2)
    | Option.none => Option.none

/-- One application of the tokenizer regex of lispy.py line 44 to a line:
skip whitespace, then match in order a `,@`, a single delimiter out of
`(`, the quote family and `)`, a quoted string, a `;` comment running to
end of line, or a maximal run of other characters; returns the token text
and the rest of the line.  On an unterminated string the run alternative
matches emptily and the line is returned unconsumed (Python would then
loop forever; here the fuel of the caller runs out). -/
def tokenizeOnce (l : List Char) : String × List Char :=
  let l1 := l.dropWhile Char.isWhitespace
  match l1 with
  | [] => ("", [])
  | ',' :: '@' :: rest => (",@", rest)
  | c :: rest =>
    if c == '(' || c == ')' || c == '`' || c == ',' || c == squote then
      (String.singleton c, rest)
    else if c == '"' then
      match scanStr rest with
      | some pr => (String.mk ('"' :: pr.1), pr.2)
      | Option.none => ("", l1)
    else if c == ';' then (String.mk l1, [])
    else (String.mk (l1.takeWhile isRunChar), l1.dropWhile isRunChar)

/-- Fuel ample for tokenizing what the port still holds. -/
def inportFuel (ip : InPort) : Nat :=
  ip.line.length + ip.fileRest.foldl (fun a l => a + l.length + 1) 0 + 2

/-- Model of `InPort.next_token` (lispy.py lines 49 to 56): refill the
line buffer when empty (an empty `readline` result is end of file, giving
the eof object), tokenize, and skip empty tokens and comments. -/
def next_token : Nat → InPort → PyVal × InPort
  | 0, ip => (PyVal.sym eofObj, ip)
  | Nat.succ n, ip =>
    if ip.line == "" then
      match ip.fileRest with
      | [] => (PyVal.sym eofObj, ip)
      | l :: rest => next_token n { line := l, fileRest := rest }
    else
      let tr := tokenizeOnce ip.line.data
      let ip2 : InPort := { line := String.mk tr.2, fileRest := ip.fileRest }
      if tr.1 != "" && !(tr.1.startsWith ";") then (PyVal.str tr.1, ip2)
      else next_token n ip2

/-- The `quotes` table of lispy.py line 80, keyed by token text. -/
def quoteSymOf (tok : PyVal) : Option Symbol :=
  match tok with
  | PyVal.str s =>
    if s == String.singleton squote then some quoteS
    else if s == "`" then some quasiquoteS
    else if s == "," then some unquoteS
    else if s == ",@" then some unquoteSplicingS
    else Option.none
  | _ => Option.none

/-- Model of `read` (lispy.py lines 66 to 78) under Python 3.  The
function body consists solely of the definition of the inner helper
`read_ahead`; the two closing lines of the original (fetching a first
token and dispatching to the helper) are absent, so the function consumes
nothing from the port and falls off its end, returning None for every
input. -/
def read (ip : InPort) : PyVal × InPort :=
  (PyVal.none, ip)

/-- The list accumulation loop of `read_ahead` (lispy.py lines 70 to 74),
parameterised by the token handler: pull tokens until a closing paren,
appending each completed form. -/
def readListWith
    (ra : PyVal → InPort → SymState → (Except Exc PyVal) × InPort × SymState) :
    Nat → InPort → SymState → List PyVal → (Except Exc PyVal) × InPort × SymState
  | 0, ip, st, _ => (Except.error Exc.outOfFuel, ip, st)
  | Nat.succ n, ip, st, acc =>
    let tp := next_token (inportFuel ip) ip
    if pyEq tp.1 (PyVal.str ")") then (Except.ok (PyVal.list acc), tp.2, st)
    else
      match ra tp.1 tp.2 st with
      | (Except.ok v, ip3, st3) => readListWith ra n ip3 st3 (acc ++ [v])
      | (Except.error e, ip3, st3) => (Except.error e, ip3, st3)

/-- Model of the inner helper `read_ahead` (lispy.py lines 68 to 78),
which the enclosing `read` never invokes: an opening paren accumulates a
list; a stray closing paren or an eof token raises SyntaxError; a quote
family token pairs its symbol with the result of `read(inport)` — which,
`read` being broken, is always None; any other token is classified by
`atom`. -/
def read_ahead : Nat → PyVal → InPort → SymState → (Except Exc PyVal) × InPort × SymState
  | 0, _, ip, st => (Except.error Exc.outOfFuel, ip, st)
  | Nat.succ n, tok, ip, st =>
    if pyEq tok (PyVal.str "(") then readListWith (read_ahead n) n ip st []
    else if pyEq tok (PyVal.str ")") then
      (Except.error (Exc.syntaxError "unexpected )"), ip, st)
    else
      match quoteSymOf tok with
      | some q =>
        let vp := read ip
        (Except.ok (PyVal.list [PyVal.sym q, vp.1]), vp.2, st)
      | Option.none =>
        if (match tok with | PyVal.sym s => s.id == eofObj.id | _ => false) then
          (Except.error (Exc.syntaxError "unexpected EOF in list"), ip, st)
        else
          match tok with
          | PyVal.str t =>
            let rs := atom t st
            (rs.1, ip, rs.2)
          | _ => (Except.error (Exc.typeError "unexpected token object"), ip, st)

/-- Values held by the macro table (lispy.py line 320): the pre-registered
host function `let`, or a callable registered later by `define-macro`. -/
inductive MacroVal where
  | letBuiltin
  | registered (v : PyVal)

/-- The macro table: a dict keyed by Symbol, hence by spelling. -/
abbrev MacroTable := List (String × MacroVal)

/-- The table as initialised on lispy.py line 320. -/
def macroTable0 : MacroTable := [("let", MacroVal.letBuiltin)]

/-- Dict lookup in the macro table. -/
def mtLookup (mt : MacroTable) (k : String) : Option MacroVal :=
  (mt.find? (fun e => e.1 == k)).map (fun e => e.2)

/-- Dict insertion or overwrite in the macro table. -/
def mtInsert (mt : MacroTable) (k : String) (v : MacroVal) : MacroTable :=
  match mt.find? (fun e => e.1 == k) with
  | some _ => mt.map (fun e => if e.1 == k then (k, v) else e)
  | Option.none => mt ++ [(k, v)]

/-- Python iteration over a value: lists yield their elements, strings
(and Symbols) their characters as one character strings; other receivers
raise TypeError.  Iterating a lazy map object would force pending expand
calls and is outside the modelled fragment (it never arises: macro
arguments come from reader level forms). -/
def pyIter (x : PyVal) : Except Exc (List PyVal) :=
  match x with
  | PyVal.list xs => Except.ok xs
  | PyVal.sym s => Except.ok (s.name.data.map (fun c => PyVal.str (String.singleton c)))
  | PyVal.str s => Except.ok (s.data.map (fun c => PyVal.str (String.singleton c)))
  | PyVal.mapObj _ =>
    Except.error (Exc.typeError "iterating a lazy map object is outside the modelled fragment")
  | _ => Except.error (Exc.typeError (pyTypeName x ++ " object is not iterable"))

/-- One binding check of the `let` validator: `isa(b, list) and
len(b) == 2 and isa(b[0], Symbol)`. -/
def isList2Sym (b : PyVal) : Bool :=
  match b with
  | PyVal.list [v, _] => isSymV v
  | _ => false

/-- Model of the pre-registered macro `let` (lispy.py lines 310 to 318)
under Python 3.  The argument count and binding shapes are validated as in
the source; `vars, vals = zip(*bindings)` unpacking an empty binding list
raises ValueError; and on every validated input the return expression
`[[_lambda, list(vars)] + map(expand, body)] + map(expand, vals)` raises
TypeError, because in Python 3 `map` returns a lazy iterator which cannot
be concatenated to a list (the pending expand calls are never forced). -/
def letFn (args : List PyVal) : Except Exc PyVal :=
  if args.length ≤ 1 then Except.error (Exc.syntaxError "wrong length")
  else
    match args with
    | bindings :: _body =>
      match pyIter bindings with
      | Except.error e => Except.error e
      | Except.ok bs =>
        if !(bs.all isList2Sym) then Except.error (Exc.syntaxError "illegal binding list")
        else
          match bs with
          | [] => Except.error (Exc.valueError "not enough values to unpack")
          | _ => Except.error (Exc.typeError (concatMsg (PyVal.mapObj [])))
    | [] => Except.error (Exc.syntaxError "wrong length")

/-- Model of `expand_quasiquote` (lispy.py lines 296 to 308): a non pair
quotes itself; a leading unquote-splicing is illegal; `(unquote e)` of
arity two yields e; a spliced head becomes an `append` of the inner
expression with the expanded tail; otherwise a `cons` of expanded head and
expanded tail. -/
def expand_quasiquote : Nat → PyVal → Except Exc PyVal
  | 0, _ => Except.error Exc.outOfFuel
  | Nat.succ n, x =>
    if !(is_pair x) then Except.ok (PyVal.list [PyVal.sym quoteS, x])
    else
      match x with
      | PyVal.list (h :: t) =>
        if pyIs h (PyVal.sym unquoteSplicingS) then
          Except.error (Exc.syntaxError "cannot splice here")
        else if pyIs h (PyVal.sym unquoteS) then
          match t with
          | [e] => Except.ok e
          | _ => Except.error (Exc.syntaxError "wrong length")
        else if (match h with
            | PyVal.list (hh :: _) => pyIs hh (PyVal.sym unquoteSplicingS)
            | _ => false) then
          match h with
          | PyVal.list [_, inner] =>
            match expand_quasiquote n (PyVal.list t) with
            | Except.ok r => Except.ok (PyVal.list [PyVal.sym appendS, inner, r])
            | Except.error e => Except.error e
          | _ => Except.error (Exc.syntaxError "wrong length")
        else
          match expand_quasiquote n h with
          | Except.error e => Except.error e
          | Except.ok a =>
            match expand_quasiquote n (PyVal.list t) with
            | Except.error e => Except.error e
            | Except.ok b => Except.ok (PyVal.list [PyVal.sym consS, a, b])
      | _ => Except.ok (PyVal.list [PyVal.sym quoteS, x])

/-- Invocation `macro_table[x[0]](*x[1:])` of a macro table entry on the
unevaluated argument forms.  The pre-registered `let` runs `letFn`; a
registered `Procedure` runs `Procedure.__call__` (construct an Env, then
`eval` the body); a registered host primitive (only reachable through a
`define-macro` whose body names a global primitive) is outside the
modelled fragment, which no claim exercises. -/
def macroApply (mv : MacroVal) (args : List PyVal) : Except Exc PyVal :=
  match mv with
  | MacroVal.letBuiltin => letFn args
  | MacroVal.registered pv =>
    match pv with
    | PyVal.proc ps body penv =>
      match envNew ps args penv with
      | Except.ok env2 => eval body env2
      | Except.error e => Except.error e
    | _ =>
      Except.error (Exc.typeError "host primitive macro invocation is outside the modelled fragment")

/-- Sequential expansion of the elements of a list (the eager list
comprehension of the `begin` branch), threading the macro table and
propagating the first exception. -/
def expandListWith
    (ev : PyVal → MacroTable → (Except Exc PyVal) × MacroTable) :
    List PyVal → MacroTable → (Except Exc (List PyVal)) × MacroTable
  | [], mt => (Except.ok [], mt)
  | a :: as, mt =>
    match ev a mt with
    | (Except.ok v, mt2) =>
      match expandListWith ev as mt2 with
      | (Except.ok vs, mt3) => (Except.ok (v :: vs), mt3)
      | (Except.error e, mt3) => (Except.error e, mt3)
    | (Except.error e, mt2) => (Except.error e, mt2)

/-- Model of `expand` (lispy.py lines 237 to 288) under Python 3, with the
global environment (used by the `define-macro` branch through `eval`)
passed explicitly and the macro table threaded as state.  Faithful
Python 3 behaviours embedded here: `op = x[0]` runs on line 240 **before**
the constant check of line 241, so expanding an atom that is not
subscriptable (a number, a boolean, None, a map object) raises TypeError;
and the `if` branch (line 249) and default branch (line 288) return
`map(expand, x)` which in Python 3 is a **lazy iterator**, not a list —
modelled by `PyVal.mapObj` carrying the still unexpanded elements.
Messages of `require` are abstracted to their `msg` argument (the source
prepends `to_string(x)`). -/
def expand (genv : EnvChain) : Nat → PyVal → Bool → MacroTable → (Except Exc PyVal) × MacroTable
  | 0, _, _, mt => (Except.error Exc.outOfFuel, mt)
  | Nat.succ fuel, x, toplevel, mt =>
    if pyEq x (PyVal.list []) then (Except.error (Exc.syntaxError "wrong length"), mt)
    else
      match subscript0 x with
      | Except.error e => (Except.error e, mt)
      | Except.ok op =>
        match x with
        | PyVal.list xs =>
          if pyIs op (PyVal.sym quoteS) then
            if xs.length == 2 then (Except.ok x, mt)
            else (Except.error (Exc.syntaxError "wrong length"), mt)
          else if pyIs op (PyVal.sym ifS) then
            let xs2 := if xs.length == 3 then xs ++ [PyVal.none] else xs
            if xs2.length == 4 then (Except.ok (PyVal.mapObj xs2), mt)
            else (Except.error (Exc.syntaxError "wrong length"), mt)
          else if pyIs op (PyVal.sym setS) then
            match xs with
            | [_, v, e] =>
              if isSymV v then
                match expand genv fuel e false mt with
                | (Except.ok e2, mt2) => (Except.ok (PyVal.list [PyVal.sym setS, v, e2]), mt2)
                | (Except.error er, mt2) => (Except.error er, mt2)
              else (Except.error (Exc.syntaxError "can set! only a symbol"), mt)
            | _ => (Except.error (Exc.syntaxError "wrong length"), mt)
          else if pyIs op (PyVal.sym defineS) || pyIs op (PyVal.sym defineMacroS) then
            match xs with
            | _ :: v :: b1 :: brest =>
              match v with
              | PyVal.list (f :: fargs) =>
                expand genv fuel
                  (PyVal.list [op, f,
                    PyVal.list ((PyVal.sym lambdaS) :: (PyVal.list fargs) :: b1 :: brest)])
                  false mt
              | _ =>
                if !brest.isEmpty then (Except.error (Exc.syntaxError "wrong length"), mt)
                else if !(isSymV v) then
                  (Except.error (Exc.syntaxError "can define only a symbol"), mt)
                else
                  match expand genv fuel b1 false mt with
                  | (Except.error e, mt2) => (Except.error e, mt2)
                  | (Except.ok exp2, mt2) =>
                    if pyIs op (PyVal.sym defineMacroS) then
                      if !toplevel then
                        (Except.error
                          (Exc.syntaxError "define-macro only allowed at top level"), mt2)
                      else
                        match eval exp2 genv with
                        | Except.error e => (Except.error e, mt2)
                        | Except.ok procv =>
                          if !(pyCallable procv) then
                            (Except.error (Exc.syntaxError "wrong length"), mt2)
                          else
                            (Except.ok PyVal.none,
                              mtInsert mt2 (symNameOf v) (MacroVal.registered procv))
                    else (Except.ok (PyVal.list [PyVal.sym defineS, v, exp2]), mt2)
            | _ => (Except.error (Exc.syntaxError "wrong length"), mt)
          else if pyIs op (PyVal.sym beginS) then
            if xs.length == 1 then (Except.ok PyVal.none, mt)
            else
              match expandListWith (fun y mty => expand genv fuel y toplevel mty) xs mt with
              | (Except.ok ys, mt2) => (Except.ok (PyVal.list ys), mt2)
              | (Except.error e, mt2) => (Except.error e, mt2)
          else if pyIs op (PyVal.sym lambdaS) then
            match xs with
            | _ :: vars :: b1 :: brest =>
              if (match vars with
                  | PyVal.list vs => vs.all isSymV
                  | _ => false) || isSymV vars then
                let exp :=
                  if brest.isEmpty then b1 else PyVal.list ((PyVal.sym beginS) :: b1 :: brest)
                match expand genv fuel exp false mt with
                | (Except.ok e2, mt2) =>
                  (Except.ok (PyVal.list [PyVal.sym lambdaS, vars, e2]), mt2)
                | (Except.error e, mt2) => (Except.error e, mt2)
              else (Except.error (Exc.syntaxError "illegal lambda argument list"), mt)
            | _ => (Except.error (Exc.syntaxError "wrong length"), mt)
          else if pyIs op (PyVal.sym quasiquoteS) then
            match xs with
            | [_, e] => (expand_quasiquote (Nat.succ fuel) e, mt)
            | _ => (Except.error (Exc.syntaxError "wrong length"), mt)
          else if isSymV op && (mtLookup mt (symNameOf op)).isSome then
            match mtLookup mt (symNameOf op) with
            | some mv =>
              match macroApply mv xs.tail with
              | Except.error e => (Except.error e, mt)
              | Except.ok res => expand genv fuel res toplevel mt
            | Option.none => (Except.ok (PyVal.mapObj xs), mt)
          else (Except.ok (PyVal.mapObj xs), mt)
        | _ => (Except.ok x, mt)

end Lispy

namespace Lis

/-- Runtime values of lis.py.  On line 10 of lis.py, `Symbol = str`: a
Scheme symbol of this interpreter **is** a Python string, so `str` covers
both.  `proc` is a `Procedure` (lis.py lines 103 to 109) holding its
parameter form, body form, and the index of its captured environment frame
in the store. -/
inductive LV where
  | none
  | bool (b : Bool)
  | int (n : Int)
  | float (q : Rat)
  | str (s : String)
  | list (xs : List LV)
  | proc (params body : LV) (envIdx : Nat)

/-- Exceptions are shared with the Lispy embedding. -/
abbrev Exc := Lispy.Exc

/-- Numeric view of Python `==` for lis values. -/
def lvNumView (x : LV) : Option Rat :=
  match x with
  | LV.bool b => some (if b then 1 else 0)
  | LV.int n => some ((n : Rat))
  | LV.float q => some q
  | _ => Option.none

/-- Model of Python `==` on lis values (strings by contents, numbers and
booleans through the numeric view, lists elementwise; Procedure objects
compare by identity and never coincide across allocations in the reachable
fragment). -/
def lvEq : LV → LV → Bool
  | LV.list (a :: as), LV.list (b :: bs) => lvEq a b && lvEq (LV.list as) (LV.list bs)
  | LV.list [], LV.list [] => true
  | LV.none, LV.none => true
  | LV.str a, LV.str b => a == b
  | x, y =>
    match lvNumView x, lvNumView y with
    | some a, some b => a == b
    | _, _ => false

/-- Python truthiness, as used by the conditional expression on line 125
of lis.py: False, None, zero and empty containers are falsy. -/
def lvTruthy (x : LV) : Bool :=
  match x with
  | LV.none => false
  | LV.bool b => b
  | LV.int n => n != 0
  | LV.float q => q != 0
  | LV.str s => s != ""
  | LV.list xs => !xs.isEmpty
  | LV.proc _ _ _ => true

/-- Python type name for TypeError messages. -/
def lvTypeName (x : LV) : String :=
  match x with
  | LV.none => "NoneType"
  | LV.bool _ => "bool"
  | LV.int _ => "int"
  | LV.float _ => "float"
  | LV.str _ => "str"
  | LV.list _ => "list"
  | LV.proc _ _ _ => "Procedure"

/-- Dict keys must be hashable: lists are not. -/
def lvHashable (x : LV) : Bool :=
  match x with
  | LV.list _ => false
  | _ => true

/-- One environment frame of lis.py (class Env, lines 93 to 101): a dict
plus the index of the outer frame (`none` for the root, whose outer is the
Python None). -/
structure LFrame where
  table : List (LV × LV)
  outer : Option Nat

/-- The store of all frames ever constructed; frames are mutated in place
through their index, which is how the shared mutation of `define` and
`set!` across closures is reflected. -/
abbrev LStore := List LFrame

/-- Membership test `var in self` on a frame. -/
def frameContainsL (fr : LFrame) (var : LV) : Bool :=
  fr.table.any (fun kv => lvEq kv.1 var)

/-- Dict subscript `self[var]` on a frame. -/
def frameGetL (fr : LFrame) (var : LV) : Except Exc LV :=
  match fr.table.find? (fun kv => lvEq kv.1 var) with
  | some kv => Except.ok kv.2
  | Option.none => Except.error (Lispy.Exc.keyError "")

/-- Dict insert or overwrite `self[var] = val` on a frame. -/
def frameSetL (fr : LFrame) (var val : LV) : LFrame :=
  if fr.table.any (fun kv => lvEq kv.1 var) then
    ⟨fr.table.map (fun kv => if lvEq kv.1 var then (kv.1, val) else kv), fr.outer⟩
  else ⟨fr.table ++ [(var, val)], fr.outer⟩

/-- Model of `Env.find` of lis.py (lines 99 to 101): `return self if (var
in self) else self.outer.find(var)`.  Unlike the lispy version there is no
None check, so exhausting the chain dereferences None and raises
AttributeError.  Returns the index of the owning frame.  The fuel is an
artifact (chains built by evaluation are acyclic and shorter than the
store). -/
def findL : Nat → Nat → LV → LStore → Except Exc Nat
  | 0, _, _, _ => Except.error Lispy.Exc.outOfFuel
  | Nat.succ n, idx, var, store =>
    if !(lvHashable var) then Except.error (Lispy.Exc.typeError "unhashable type list")
    else
      match store.get? idx with
      | Option.none => Except.error Lispy.Exc.indexError
      | some fr =>
        if frameContainsL fr var then Except.ok idx
        else
          match fr.outer with
          | Option.none =>
            Except.error (Lispy.Exc.attributeError "NoneType object has no attribute find")
          | some o => findL n o var store

/-- Iterable view of a parameter form for `zip(params, args)`: a list
yields its elements, a string its characters; other receivers raise
TypeError. -/
def paramIter (params : LV) : Except Exc (List LV) :=
  match params with
  | LV.list ps => Except.ok ps
  | LV.str s => Except.ok (s.data.map (fun c => LV.str (String.singleton c)))
  | _ => Except.error (Lispy.Exc.typeError (lvTypeName params ++ " object is not iterable"))

/-- Model of the Env constructor of lis.py (lines 95 to 97):
`self.update(zip(params, args)); self.outer = outer`.  There is **no**
arity check and no single symbol special case: `zip` silently truncates to
the shorter operand, and a string parameter form zips characterwise.
Unhashable keys raise TypeError at dict insertion. -/
def lisEnvNew (params : LV) (args : List LV) (outer : Nat) : Except Exc LFrame :=
  match paramIter params with
  | Except.error e => Except.error e
  | Except.ok ps =>
    let zs := ps.zip args
    if zs.any (fun kv => !(lvHashable kv.1)) then
      Except.error (Lispy.Exc.typeError "unhashable type list")
    else
      Except.ok ⟨zs.foldl (fun t kv => (frameSetL ⟨t, some outer⟩ kv.1 kv.2).table) [], some outer⟩

/-- Overwrite the frame at an index. -/
def storeSet (s : LStore) (i : Nat) (fr : LFrame) : LStore :=
  s.set i fr

/-- Left to right evaluation of argument forms (the list comprehension of
lis.py line 138), parameterised by the evaluator, threading the store and
propagating the first exception. -/
def evalArgsWith
    (ev : LV → Nat → LStore → (Except Exc LV) × LStore) :
    List LV → Nat → LStore → (Except Exc (List LV)) × LStore
  | [], _, store => (Except.ok [], store)
  | a :: as, env, store =>
    match ev a env store with
    | (Except.ok v, s2) =>
      match evalArgsWith ev as env s2 with
      | (Except.ok vs, s3) => (Except.ok (v :: vs), s3)
      | (Except.error e, s3) => (Except.error e, s3)
    | (Except.error e, s2) => (Except.error e, s2)

/-- Model of `eval` of lis.py (lines 113 to 139).  Every string is a
Symbol (line 10) and is looked up through `env.find(x)[x]`; every other
non list value is a constant returning itself.  A list dispatches on its
head by string equality: `quote` returns its first argument form
(IndexError when absent); `if` destructures exactly three arguments
(ValueError otherwise), evaluates the test and continues with the branch
chosen by **Python truthiness**; `define` evaluates and binds in the
current frame, falling off the function to return None; `set!` evaluates
the right hand side first, then assigns through `find`; `lambda` builds a
Procedure capturing the current frame; anything else evaluates the
operator, then the operands left to right, and applies: a Procedure runs
its body in a fresh frame from the Env constructor, any other value
raises TypeError (no host primitive ever exists: `standard_env` of lines
50 to 84 raises NameError on the unimported `cmath` at module load, so
lis.py has no working global environment at all).  Fuel models the
unbounded recursion; `define` and `set!` with an argument count other than
two raise the ValueError of tuple unpacking. -/
def lisEval : Nat → LV → Nat → LStore → (Except Exc LV) × LStore
  | 0, _, _, store => (Except.error Lispy.Exc.outOfFuel, store)
  | Nat.succ fuel, x, env, store =>
    match x with
    | LV.str s =>
      match findL (store.length + 1) env (LV.str s) store with
      | Except.ok fidx =>
        match store.get? fidx with
        | some fr => (frameGetL fr (LV.str s), store)
        | Option.none => (Except.error Lispy.Exc.indexError, store)
      | Except.error e => (Except.error e, store)
    | LV.list xs =>
      match xs with
      | [] => (Except.error (Lispy.Exc.valueError "not enough values to unpack"), store)
      | op :: args =>
        if lvEq op (LV.str "quote") then
          match args with
          | a :: _ => (Except.ok a, store)
          | [] => (Except.error Lispy.Exc.indexError, store)
        else if lvEq op (LV.str "if") then
          match args with
          | [t, c, a] =>
            match lisEval fuel t env store with
            | (Except.ok v, s2) => lisEval fuel (if lvTruthy v then c else a) env s2
            | (Except.error e, s2) => (Except.error e, s2)
          | _ => (Except.error (Lispy.Exc.valueError "not enough values to unpack"), store)
        else if lvEq op (LV.str "define") then
          match args with
          | [sym, exp] =>
            match lisEval fuel exp env store with
            | (Except.ok v, s2) =>
              if !(lvHashable sym) then
                (Except.error (Lispy.Exc.typeError "unhashable type list"), s2)
              else
                match s2.get? env with
                | some fr => (Except.ok LV.none, storeSet s2 env (frameSetL fr sym v))
                | Option.none => (Except.error Lispy.Exc.indexError, s2)
            | (Except.error e, s2) => (Except.error e, s2)
          | _ => (Except.error (Lispy.Exc.valueError "not enough values to unpack"), store)
        else if lvEq op (LV.str "set!") then
          match args with
          | [sym, exp] =>
            match lisEval fuel exp env store with
            | (Except.ok v, s2) =>
              match findL (s2.length + 1) env sym s2 with
              | Except.ok fidx =>
                match s2.get? fidx with
                | some fr => (Except.ok LV.none, storeSet s2 fidx (frameSetL fr sym v))
                | Option.none => (Except.error Lispy.Exc.indexError, s2)
              | Except.error e => (Except.error e, s2)
            | (Except.error e, s2) => (Except.error e, s2)
          | _ => (Except.error (Lispy.Exc.valueError "not enough values to unpack"), store)
        else if lvEq op (LV.str "lambda") then
          match args with
          | [params, body] => (Except.ok (LV.proc params body env), store)
          | _ => (Except.error (Lispy.Exc.valueError "not enough values to unpack"), store)
        else
          match lisEval fuel op env store with
          | (Except.error e, s2) => (Except.error e, s2)
          | (Except.ok procv, s2) =>
            match evalArgsWith (fun a e st => lisEval fuel a e st) args env s2 with
            | (Except.error e, s3) => (Except.error e, s3)
            | (Except.ok vs, s3) =>
              match procv with
              | LV.proc ps body penv =>
                match lisEnvNew ps vs penv with
                | Except.ok fr => lisEval fuel body s3.length (s3 ++ [fr])
                | Except.error e => (Except.error e, s3)
              | _ =>
                (Except.error
                  (Lispy.Exc.typeError (lvTypeName procv ++ " object is not callable")), s3)
    | _ => (Except.ok x, store)

end Lis

/-- Boolean success test on a fallible result. -/
def isOkE {α : Type} (e : Except Lispy.Exc α) : Bool :=
  match e with
  | Except.ok _ => true
  | Except.error _ => false

namespace Fixtures

open Lispy

/-- The closure value that `(lambda (x) (lambda (y) (+ x y)))` would
produce: a Procedure over the parameter list `(x)` whose body is the inner
lambda form (fresh reader symbols carry allocation ids past the interned
range). -/
def c1Proc : PyVal :=
  PyVal.proc (PyVal.list [PyVal.sym ⟨"x", 21⟩])
    (PyVal.list [PyVal.sym lambdaS, PyVal.list [PyVal.sym ⟨"y", 22⟩],
      PyVal.list [PyVal.sym ⟨"+", 23⟩, PyVal.sym ⟨"x", 21⟩, PyVal.sym ⟨"y", 22⟩]])
    []

/-- An environment binding `f` to the closure above. -/
def c1Env : EnvChain := [[(PyVal.sym ⟨"f", 20⟩, c1Proc)]]

/-- The application form `((f 3) 4)`. -/
def c1Form : PyVal :=
  PyVal.list [PyVal.list [PyVal.sym ⟨"f", 20⟩, PyVal.int 3], PyVal.int 4]

/-- The form `(let ((x 1) (y 2)) (+ x y))`, headed by the interned let
symbol. -/
def c6Form : PyVal :=
  PyVal.list [PyVal.sym letS,
    PyVal.list [PyVal.list [PyVal.sym ⟨"x", 30⟩, PyVal.int 1],
                PyVal.list [PyVal.sym ⟨"y", 31⟩, PyVal.int 2]],
    PyVal.list [PyVal.sym ⟨"+", 32⟩, PyVal.sym ⟨"x", 30⟩, PyVal.sym ⟨"y", 31⟩]]

/-- An input port whose next content is the well formed form `42`. -/
def c4Port : InPort := ⟨"42\n", []⟩

end Fixtures

/-- A store holding one empty root frame for the lis.py evaluator. -/
def c2Store : List Lis.LFrame := [⟨[], Option.none⟩]

/-- C1: the claim that applying a closure evaluates its body in a fresh
environment over the captured one (and that `((f 3) 4)` returns 7) fails
on this code: `eval` raises NameError on every list form, because line 200
of lispy.py references the name `List`, which is defined only in lis.py
and never in lispy.py.  Here `f` is bound to exactly the closure the claim
describes — the second conjunct shows the operator symbol does evaluate to
it — yet evaluating the application form raises instead of returning 7
(the dispatch also lacks the loop of the original, so even with `List`
defined the application branch would fall off the function and return
None). -/
theorem c1_application_raises_nameError :
    Lispy.eval Fixtures.c1Form Fixtures.c1Env = Except.error (Lispy.Exc.nameError "List")
  ∧ Lispy.eval (Lispy.PyVal.sym ⟨"f", 20⟩) Fixtures.c1Env = Except.ok Fixtures.c1Proc := by
  constructor
  · rfl
  · simp [Fixtures.c1Env, Fixtures.c1Proc, Lispy.eval, Lispy.find, Lispy.frameContains,
      Lispy.frameGet, Lispy.pyEq]

/-- C2 counterexample: the claim as stated is false at the concrete input
`(if 0 1 2)`: the test value 0 is not the boolean false, so the claim
demands the consequent 1, but the lis.py evaluator (the only one whose if
branch is reachable) returns the alternative 2, because line 125 decides
by Python truthiness. -/
theorem c2_if_counterexample :
    Lis.lisEval 9 (Lis.LV.list [Lis.LV.str "if", Lis.LV.int 0, Lis.LV.int 1, Lis.LV.int 2]) 0
        c2Store
      = (Except.ok (Lis.LV.int 2), c2Store)
  ∧ Lis.LV.int 0 ≠ Lis.LV.bool false
  ∧ Lis.LV.int 2 ≠ Lis.LV.int 1 := by
  refine ⟨?_, by simp, by simp⟩
  simp [Lis.lisEval, Lis.lvEq, Lis.lvTruthy, c2Store, Lis.lvNumView]

/-- C2 amended: for every form `(if t c a)` the lis.py evaluator evaluates
t in the environment first, then continues with c exactly when the value
of t is truthy under host truthiness (the boolean false, None, zero, the
empty string and the empty list are falsy) and with a otherwise, in the
same environment; the lispy.py evaluator raises NameError on every list
form, if forms included. -/
theorem c2_if_amended :
    (∀ (fuel : Nat) (t c a : Lis.LV) (env : Nat) (store : Lis.LStore),
      Lis.lisEval (fuel + 1) (Lis.LV.list [Lis.LV.str "if", t, c, a]) env store =
        match Lis.lisEval fuel t env store with
        | (Except.ok v, s2) => Lis.lisEval fuel (if Lis.lvTruthy v then c else a) env s2
        | (Except.error e, s2) => (Except.error e, s2))
  ∧ (∀ (xs : List Lispy.PyVal) (env : Lispy.EnvChain),
      Lispy.eval (Lispy.PyVal.list xs) env = Except.error (Lispy.Exc.nameError "List")) := by
  constructor
  · intro fuel t c a env store
    simp [Lis.lisEval, Lis.lvEq]
  · intro xs env; rfl

/-- C3: the claim fails: `throw` raises the RuntimeWarning ball, but the
handler of `call_cc` catches only `RuntimeError` (lispy.py line 152,
where the original catches RuntimeWarning), so on the spec example
procedure `(lambda (k) (+ 1 (k 42)))` the call does not return 42 — the
ball escapes the call uncaught (the + is indeed never applied, but no
value is returned either). -/
theorem c3_callcc_ball_escapes :
    Lispy.call_cc Lispy.contExample = Except.error (Lispy.Exc.ball (Lispy.PyVal.int 42))
  ∧ Except.error (Lispy.Exc.ball (Lispy.PyVal.int 42)) ≠
      (Except.ok (Lispy.PyVal.int 42) : Except Lispy.Exc Lispy.PyVal) :=
  ⟨rfl, by simp⟩

/-- C4: the claim fails: `read` defines its inner helper but never fetches
a token nor invokes the helper (the two closing lines of the original are
missing), so on a stream whose next content is the well formed form `42`
it returns None — not the form, and at end of input not the eof object
either. -/
theorem c4_read_returns_none :
    Lispy.read Fixtures.c4Port = (Lispy.PyVal.none, Fixtures.c4Port)
  ∧ Lispy.PyVal.none ≠ Lispy.PyVal.int 42 :=
  ⟨rfl, by simp⟩

/-- C5: the claim fails already on atomic core forms: `op = x[0]` (lispy.py
line 240) runs before the constant check of line 241, so expanding the
core form 5 raises TypeError rather than returning 5, and
`Expand(Expand(5)) == Expand(5)` cannot hold. -/
theorem c5_expand_atom_raises :
    Lispy.expand [] 5 (Lispy.PyVal.int 5) false Lispy.macroTable0
      = (Except.error (Lispy.Exc.typeError "int object is not subscriptable"),
         Lispy.macroTable0) := by
  simp [Lispy.expand, Lispy.pyEq, Lispy.subscript0, Lispy.numView, Lispy.pyTypeName]

/-- C6: the claim fails: under Python 3 the pre-registered `let` macro
raises TypeError on every well shaped input, because line 318 concatenates
a list with the lazy iterator that `map` now returns; expanding
`(let ((x 1) (y 2)) (+ x y))` therefore raises instead of producing the
immediately applied lambda. -/
theorem c6_let_raises_typeError :
    Lispy.expand [] 5 Fixtures.c6Form false Lispy.macroTable0
      = (Except.error (Lispy.Exc.typeError "can only concatenate list (not map) to list"),
         Lispy.macroTable0) := by
  simp [Fixtures.c6Form, Lispy.expand, Lispy.pyEq, Lispy.subscript0, Lispy.pyIs, Lispy.isSymV,
    Lispy.mtLookup, Lispy.macroTable0, Lispy.macroApply, Lispy.letFn, Lispy.pyIter,
    Lispy.isList2Sym, Lispy.symNameOf, Lispy.concatMsg, Lispy.pyTypeName, Lispy.numView,
    Lispy.quoteS, Lispy.ifS, Lispy.setS, Lispy.defineS, Lispy.lambdaS, Lispy.beginS,
    Lispy.defineMacroS, Lispy.quasiquoteS, Lispy.letS]

/-- C7: the interner itself is idempotent on identities (first conjunct:
two `Sym` calls for the spelling a return the same object), but the claim
fails for symbols produced by the Reader: `atom` (lispy.py line 93) builds
a bare `Symbol(token)` instead of calling `Sym(token)` as the original
does, so classifying the token a twice yields objects with distinct
identities (allocation ids 14 and 15), and `eq?` — the identity test
`op.is_` — on the two quoted occurrences of a is false. -/
theorem c7_reader_symbols_not_interned :
    Lispy.symIsB (Lispy.Sym "a" Lispy.initSymState).1
        (Lispy.Sym "a" (Lispy.Sym "a" Lispy.initSymState).2).1 = true
  ∧ (Lispy.atom "a" Lispy.initSymState).1 = Except.ok (Lispy.PyVal.sym ⟨"a", 14⟩)
  ∧ (Lispy.atom "a" (Lispy.atom "a" Lispy.initSymState).2).1
      = Except.ok (Lispy.PyVal.sym ⟨"a", 15⟩)
  ∧ Lispy.symIsB ⟨"a", 14⟩ ⟨"a", 15⟩ = false := by
  exact ⟨rfl, rfl, rfl, rfl⟩

/-- C8: confirmed: for a fixed sequence of symbol parameters, Env
construction succeeds exactly when the argument count equals the parameter
count (raising the arity TypeError of lispy.py lines 130 to 131
otherwise), and a single symbol parameter always succeeds, binding the
whole argument sequence, as a list, to that symbol. -/
theorem c8_env_arity :
    (∀ (ps : List Lispy.Symbol) (args : List Lispy.PyVal) (outer : Lispy.EnvChain),
      isOkE (Lispy.envNew (Lispy.PyVal.list (ps.map Lispy.PyVal.sym)) args outer) = true
        ↔ args.length = ps.length)
  ∧ (∀ (s : Lispy.Symbol) (args : List Lispy.PyVal) (outer : Lispy.EnvChain),
      Lispy.envNew (Lispy.PyVal.sym s) args outer
        = Except.ok ([(Lispy.PyVal.sym s, Lispy.PyVal.list args)] :: outer)) := by
  constructor
  · intro ps args outer
    by_cases h : args.length = ps.length <;>
      simp [Lispy.envNew, isOkE, h, List.length_map]
  · intro s args outer; rfl

/-- Helper: a symbol contained in no frame makes `find` exhaust the chain
and raise the LookupError carrying the variable. -/
theorem find_unbound_of_not_envBound (s : Lispy.Symbol) (env : Lispy.EnvChain)
    (h : Lispy.envBound s env = false) :
    Lispy.find (Lispy.PyVal.sym s) env = Except.error (Lispy.Exc.lookupError s.name) := by
  induction env with
  | nil => rfl
  | cons fr rest ih =>
    simp [Lispy.envBound, List.any_cons] at h
    simp [Lispy.find, h.1]
    exact ih (by simpa [Lispy.envBound] using h.2)

/-- C9: confirmed: evaluating a symbol bound in no frame of the chain
raises the unbound variable LookupError coming from `Env.find`, and
evaluating a `set!` form raises an error without creating any binding —
concretely the NameError of the broken constant test on line 200, which
fires before the assignment of lines 214 to 217 could run; `eval` performs
no environment mutation whatsoever on these paths (only `define` could
create bindings, and it sits behind the same dead branch). -/
theorem c9_unbound_errors :
    (∀ (s : Lispy.Symbol) (env : Lispy.EnvChain), Lispy.envBound s env = false →
      Lispy.eval (Lispy.PyVal.sym s) env = Except.error (Lispy.Exc.lookupError s.name))
  ∧ (∀ (v e : Lispy.PyVal) (env : Lispy.EnvChain),
      Lispy.eval (Lispy.PyVal.list [Lispy.PyVal.sym Lispy.setS, v, e]) env
        = Except.error (Lispy.Exc.nameError "List")) := by
  constructor
  · intro s env h
    simp [Lispy.eval, find_unbound_of_not_envBound s env h]
  · intro v e env; rfl

/-- Witness for C9 at a concrete unbound symbol q in a one frame chain
binding only p. -/
theorem c9_unbound_errors_witness :
    Lispy.eval (Lispy.PyVal.sym ⟨"q", 99⟩) [[(Lispy.PyVal.sym ⟨"p", 98⟩, Lispy.PyVal.int 7)]]
      = Except.error (Lispy.Exc.lookupError "q")
  ∧ Lispy.eval (Lispy.PyVal.list [Lispy.PyVal.sym Lispy.setS, Lispy.PyVal.sym ⟨"q", 99⟩,
        Lispy.PyVal.int 1]) []
      = Except.error (Lispy.Exc.nameError "List") :=
  ⟨c9_unbound_errors.1 ⟨"q", 99⟩ [[(Lispy.PyVal.sym ⟨"p", 98⟩, Lispy.PyVal.int 7)]]
      (by simp [Lispy.envBound, Lispy.frameContains, Lispy.pyEq]),
   c9_unbound_errors.2 (Lispy.PyVal.sym ⟨"q", 99⟩) (Lispy.PyVal.int 1) []⟩

/-- C10: confirmed: `cons` applied to any value and a list returns the
fresh list with the new head and the argument list itself, unchanged, as
the tail; applied to a non list second argument it raises the
concatenation TypeError, so no dotted pair can ever be constructed. -/
theorem c10_cons_spec :
    (∀ (x : Lispy.PyVal) (ys : List Lispy.PyVal),
      Lispy.cons x (Lispy.PyVal.list ys) = Except.ok (Lispy.PyVal.list (x :: ys)))
  ∧ (∀ (x y : Lispy.PyVal), Lispy.isListV y = false →
      Lispy.cons x y = Except.error (Lispy.Exc.typeError (Lispy.concatMsg y))) := by
  constructor
  · intro x ys; rfl
  · intro x y h
    cases y <;> simp_all [Lispy.cons, Lispy.isListV]

/-- Witness for C10 at the inputs 1 and (2), and 1 and the non list 5. -/
theorem c10_cons_spec_witness :
    Lispy.cons (Lispy.PyVal.int 1) (Lispy.PyVal.list [Lispy.PyVal.int 2])
      = Except.ok (Lispy.PyVal.list [Lispy.PyVal.int 1, Lispy.PyVal.int 2])
  ∧ Lispy.isListV (Lispy.PyVal.int 5) = false
  ∧ Lispy.cons (Lispy.PyVal.int 1) (Lispy.PyVal.int 5)
      = Except.error (Lispy.Exc.typeError (Lispy.concatMsg (Lispy.PyVal.int 5))) :=
  ⟨c10_cons_spec.1 (Lispy.PyVal.int 1) [Lispy.PyVal.int 2], rfl,
   c10_cons_spec.2 (Lispy.PyVal.int 1) (Lispy.PyVal.int 5) rfl⟩
